import Mathlib

/-! # Verification of packages/@aws-cdk/aws-lambda/lib/edge-function.ts

A shallow embedding of the EdgeFunction construct. The construct tree is
modelled as an explicit `World` state threaded through the construction
functions. Collaborators from other packages of the repository (Function,
iam.Role, ssm.StringParameter, CustomResourceProvider, CustomResource) are
modelled as records of the arguments the source passes to them, and
deployment-time token values (currentVersion.edgeArn, getAttString,
formatArn) are modelled symbolically by the `ArnValue` inductive. -/

namespace AwsCdk

/-- A CDK string-like value that may be an unresolved token
(`Token.isUnresolved`): the region of a stack is either a concrete string
or a deferred token. -/
inductive RegionValue where
  | resolved (r : String)
  | token (tid : Nat)
deriving DecidableEq, Repr, Inhabited

/-- Token.isUnresolved on a region value. -/
def RegionValue.isUnresolved : RegionValue → Bool
  | .resolved _ => false
  | .token _ => true

/-- Strict string comparison of a possibly-deferred region against a
concrete string (a token string never equals a concrete literal). -/
def RegionValue.eqString : RegionValue → String → Bool
  | .resolved r, s => r == s
  | .token _, _ => false

/-- EdgeFunction.EDGE_REGION. -/
def EDGE_REGION : String := "us-east-1"

/-- The check on line 58 of edge-function.ts:
`!Token.isUnresolved(this.stack.region) && this.stack.region === us-east-1`. -/
def regionIsUsEast1 (region : RegionValue) : Bool :=
  !region.isUnresolved && region.eqString EDGE_REGION

/-- Deployment-time string values (tokens) produced by the collaborators:
the edgeArn of the current version of a function (identified by its
construct path), a getAtt attribute of a custom resource, and the ARN that
`Stack.formatArn` renders for an SSM parameter. -/
inductive ArnValue where
  | currentVersionEdgeArn (fnPath : List String)
  | getAttString (resourcePath : List String) (attr : String)
  | ssmParameterArn (region : String) (parameterName : String)
deriving DecidableEq, Repr, Inhabited

/-- Modelled from the spec: the version-qualifier extraction of
lambda-version.ts (a file of this repository that is not under src/),
which derives the "resolved version-qualifier string" from a
version-qualified ARN token; represented symbolically as a function of
that ARN. -/
inductive QualifierValue where
  | qualifierOf (arn : ArnValue)
deriving DecidableEq, Repr

def extractQualifierFromArn (arn : ArnValue) : QualifierValue :=
  QualifierValue.qualifierOf arn

/-- An iam.Role as created by this module: the scope it was created in,
its construct id, the service principals it may be assumed by, and the
managed policies attached. -/
structure IamRole where
  scopePath : List String
  id : String
  assumedBy : List String
  managedPolicies : List String
deriving DecidableEq, Repr, Inhabited

/-- EdgeFunctionProps (extends FunctionProps): the fields this module
inspects (an optional caller-supplied role) plus a representative
forwarded field (whether VPC configuration is present). -/
structure EdgeFunctionProps where
  role : Option IamRole
  hasVpc : Bool
deriving DecidableEq, Repr, Inhabited

/-- defaultLambdaRole of edge-function.ts (lines 245-253). -/
def defaultLambdaRole (scopePath : List String) (id : String) : IamRole :=
  { scopePath := scopePath
    id := id ++ "ServiceRole"
    assumedBy := ["lambda.amazonaws.com", "edgelambda.amazonaws.com"]
    managedPolicies := ["service-role/AWSLambdaBasicExecutionRole"] }

/-- A lambda Function resource as created by this module: scope,
construct id, the effective role passed in its props, and the forwarded
VPC flag. -/
structure LambdaFunction where
  scopePath : List String
  id : String
  role : IamRole
  hasVpc : Bool
deriving DecidableEq, Repr, Inhabited

/-- The construct path of a function. -/
def LambdaFunction.path (f : LambdaFunction) : List String :=
  f.scopePath ++ [f.id]

/-- An ssm.StringParameter resource: its scope, parameter name and the
(token) string value it publishes. -/
structure SsmParameter where
  scopePath : List String
  parameterName : String
  stringValue : ArnValue
deriving DecidableEq, Repr, Inhabited

/-- A CrossRegionLambdaStack created under the stage root: its construct
id (the lookup key) and the region of its env. -/
structure SupportStackRec where
  id : String
  envRegion : String
deriving DecidableEq, Repr, Inhabited

/-- Modelled from the spec: CustomResourceProvider.getOrCreate of the
core package (a file of this repository that is not under src/): a single
resolver-provider shared, find-or-create, per caller scope and
resource-type pair, with the given access policy attached (the policy of
edge-function.ts allows ssm:GetParameter on exactly one parameter ARN,
recorded as `policyResource`). -/
structure ProviderRec where
  scopePath : List String
  resourceType : String
  policyResource : ArnValue
deriving DecidableEq, Repr, Inhabited

/-- A CustomResource: its scope, construct id, resource type, and the
properties the source passes (Region, ParameterName, RefreshEachDeploy). -/
structure CustomResourceRec where
  scopePath : List String
  id : String
  resourceType : String
  region : String
  parameterName : String
  refreshEachDeploy : Nat
deriving DecidableEq, Repr, Inhabited

/-- An Alias resource: its scope (a stack), construct id, alias name, the
function whose current version it targets, and a representative option. -/
structure AliasRec where
  scopePath : List String
  id : String
  aliasName : String
  versionOf : List String
  description : Option String
deriving DecidableEq, Repr, Inhabited

/-- The state of the construct tree: every resource created so far, plus
the registered cross-stack build-order dependencies. -/
structure World where
  supportStacks : List SupportStackRec
  functions : List LambdaFunction
  parameters : List SsmParameter
  providers : List ProviderRec
  customResources : List CustomResourceRec
  stackDeps : List (String × String)
  aliases : List AliasRec
deriving DecidableEq, Repr, Inhabited

/-- The environment of an EdgeFunction construction: the id of the stack
the facade is placed in, the region of that stack, and whether the root of
the construct tree is a Stage (`Stage.isStage(this.node.root)`). -/
structure CallerScope where
  stackId : String
  region : RegionValue
  rootIsStage : Bool
deriving DecidableEq, Repr, Inhabited

/-- FunctionConfig of edge-function.ts (lines 218-223): the result of
creating an in-region or cross-region function. Handles to the function
and its current version are represented by the construct path of the
function. -/
structure FunctionConfig where
  edgeFunctionPath : List String
  currentVersion : List String
  edgeArn : ArnValue
  functionStackId : String
deriving DecidableEq, Repr, Inhabited

/-- The public surface of a constructed EdgeFunction facade (the fields
its constructor assigns, lines 62-71). -/
structure EdgeFunctionResult where
  facadePath : List String
  functionStackId : String
  lambdaPath : List String
  currentVersion : List String
  edgeArn : ArnValue
  functionArn : ArnValue
  version : QualifierValue
  isBoundToVpc : Bool
deriving DecidableEq, Repr

/-- The field assignments of the EdgeFunction constructor (lines 62-71):
`functionArn = edgeArn`, `version = extractQualifierFromArn(functionArn)`,
and `isBoundToVpc = false` (line 44). -/
def mkResult (sc : CallerScope) (id : String) (cfg : FunctionConfig) :
    EdgeFunctionResult :=
  { facadePath := [sc.stackId, id]
    functionStackId := cfg.functionStackId
    lambdaPath := cfg.edgeFunctionPath
    currentVersion := cfg.currentVersion
    edgeArn := cfg.edgeArn
    functionArn := cfg.edgeArn
    version := extractQualifierFromArn cfg.edgeArn
    isBoundToVpc := false }

/-- createInRegionFunction (lines 126-136): role defaulting, a Function
child named Fn under the facade, edgeArn is the edgeArn of the current
version of that function, and the owning stack is the stack of the
caller. -/
def createInRegionFunction (sc : CallerScope) (id : String)
    (props : EdgeFunctionProps) (w : World) : FunctionConfig × World :=
  let facadePath := [sc.stackId, id]
  let role := props.role.getD (defaultLambdaRole facadePath id)
  let fn : LambdaFunction :=
    { scopePath := facadePath, id := "Fn", role := role, hasVpc := props.hasVpc }
  ({ edgeFunctionPath := fn.path
     currentVersion := fn.path
     edgeArn := ArnValue.currentVersionEdgeArn fn.path
     functionStackId := sc.stackId },
   { w with functions := w.functions ++ [fn] })

/-- edgeStack (lines 177-196): fail if the root is not a Stage; fail if
the region of the env is unresolved; derive the lookup key from the
region of the caller; tryFindChild under the stage root, creating the
CrossRegionLambdaStack with env region us-east-1 when absent. The stack
is identified by its construct id under the stage root. -/
def edgeStack (sc : CallerScope) (w : World) : Except String (String × World) :=
  if !sc.rootIsStage then
    Except.error "stacks which use EdgeFunctions must be part of a CDK app or stage"
  else
    match sc.region with
    | RegionValue.token _ =>
        Except.error "stacks which use EdgeFunctions must have an explicitly set region"
    | RegionValue.resolved region =>
        let edgeStackId := "edge-lambda-stack-" ++ region
        match w.supportStacks.find? (fun s => s.id == edgeStackId) with
        | some _ => Except.ok (edgeStackId, w)
        | none =>
            Except.ok (edgeStackId,
              { w with supportStacks :=
                  w.supportStacks ++ [{ id := edgeStackId, envRegion := EDGE_REGION }] })

/-- CrossRegionLambdaStack.addEdgeFunction (lines 232-241): role
defaulting with the stack itself as scope, a Function child of the stack
named by the caller-supplied id, and a StringParameter child of that
function publishing the edgeArn of its current version under
`parameterName`. Returns the function and its current version. -/
def addEdgeFunction (stackId : String) (id : String) (parameterName : String)
    (props : EdgeFunctionProps) (w : World) :
    (LambdaFunction × List String) × World :=
  let role := props.role.getD (defaultLambdaRole [stackId] id)
  let fn : LambdaFunction :=
    { scopePath := [stackId], id := id, role := role, hasVpc := props.hasVpc }
  let param : SsmParameter :=
    { scopePath := fn.path
      parameterName := parameterName
      stringValue := ArnValue.currentVersionEdgeArn fn.path }
  ((fn, fn.path),
   { w with
      functions := w.functions ++ [fn]
      parameters := w.parameters ++ [param] })

/-- The resource type tag of the custom resource (line 152). -/
def crossRegionResourceType : String := "Custom::CrossRegionStringParameterReader"

/-- Find-or-create of the resolver provider, per (scope, resource type)
pair; see `ProviderRec`. -/
def getOrCreateProvider (scopePath : List String) (resourceType : String)
    (policyResource : ArnValue) (w : World) : ProviderRec × World :=
  match w.providers.find?
      (fun p => p.scopePath == scopePath && p.resourceType == resourceType) with
  | some p => (p, w)
  | none =>
      let p : ProviderRec :=
        { scopePath := scopePath, resourceType := resourceType
          policyResource := policyResource }
      (p, { w with providers := w.providers ++ [p] })

/-- createCrossRegionFunction (lines 138-175): derive the parameter name
from the construct id, resolve the support stack, register the
cross-stack dependency, add the function and parameter to the support
stack, find-or-create the provider with read access scoped to the ARN of
that one parameter, create the ArnReader custom resource, and return the
FunctionArn attribute of that resource as edgeArn, with the support stack
as owning stack. -/
def createCrossRegionFunction (sc : CallerScope) (id : String)
    (props : EdgeFunctionProps) (now : Nat) (w : World) :
    Except String (FunctionConfig × World) :=
  let parameterName := "EdgeFunctionArn" ++ id
  match edgeStack sc w with
  | Except.error e => Except.error e
  | Except.ok (functionStackId, w1) =>
      let w2 : World :=
        { w1 with stackDeps := w1.stackDeps ++ [(sc.stackId, functionStackId)] }
      let added := addEdgeFunction functionStackId id parameterName props w2
      let fn := added.1.1
      let currentVersion := added.1.2
      let w3 := added.2
      let parameterArn := ArnValue.ssmParameterArn EDGE_REGION parameterName
      let facadePath := [sc.stackId, id]
      let got := getOrCreateProvider facadePath crossRegionResourceType parameterArn w3
      let w4 := got.2
      let resource : CustomResourceRec :=
        { scopePath := facadePath, id := "ArnReader"
          resourceType := crossRegionResourceType
          region := EDGE_REGION
          parameterName := parameterName
          refreshEachDeploy := now }
      let w5 : World :=
        { w4 with customResources := w4.customResources ++ [resource] }
      let edgeArn := ArnValue.getAttString (facadePath ++ ["ArnReader"]) "FunctionArn"
      Except.ok
        ({ edgeFunctionPath := fn.path
           currentVersion := currentVersion
           edgeArn := edgeArn
           functionStackId := functionStackId }, w5)

/-- The EdgeFunction constructor (lines 54-72): branch on
`regionIsUsEast1`, run the chosen placement path, and assign the facade
fields from the resulting FunctionConfig. A thrown configuration error is
the error branch; the construct-tree state at the moment of the throw is
returned alongside it. -/
def constructEdgeFunction (sc : CallerScope) (id : String)
    (props : EdgeFunctionProps) (now : Nat) (w : World) :
    Except String EdgeFunctionResult × World :=
  if regionIsUsEast1 sc.region then
    let built := createInRegionFunction sc id props w
    (Except.ok (mkResult sc id built.1), built.2)
  else
    match createCrossRegionFunction sc id props now w with
    | Except.error e => (Except.error e, w)
    | Except.ok (cfg, w') => (Except.ok (mkResult sc id cfg), w')

/-- AliasOptions: a representative option forwarded unchanged. -/
structure AliasOptions where
  description : Option String
deriving DecidableEq, Repr, Inhabited

/-- EdgeFunction.addAlias (lines 74-80): the alias is created with the
owning stack (`this.functionStack`) as scope, id Alias + name, targeting
the stored current version. -/
def EdgeFunctionResult.addAlias (ef : EdgeFunctionResult) (aliasName : String)
    (options : AliasOptions) (w : World) : AliasRec × World :=
  let a : AliasRec :=
    { scopePath := [ef.functionStackId]
      id := "Alias" ++ aliasName
      aliasName := aliasName
      versionOf := ef.currentVersion
      description := options.description }
  (a, { w with aliases := w.aliases ++ [a] })

/-- EdgeFunction.connections (lines 85-87): always throws. -/
def EdgeFunctionResult.connections (_ef : EdgeFunctionResult) : Except String Unit :=
  Except.error "Lambda@Edge does not support connections"

/-- EdgeFunction.latestVersion (lines 88-90): always throws. -/
def EdgeFunctionResult.latestVersion (_ef : EdgeFunctionResult) :
    Except String (List String) :=
  Except.error "$LATEST function version cannot be used for Lambda@Edge"

/-- cloudwatch.MetricOptions: the region option this module overrides and
a representative forwarded option. -/
structure MetricOptions where
  region : Option String
  label : Option String
deriving DecidableEq, Repr, Inhabited

/-- A cloudwatch.Metric as produced by the underlying function: which
function it is over, the metric name, and the options it received. -/
structure Metric where
  functionPath : List String
  metricName : String
  region : Option String
  label : Option String
deriving DecidableEq, Repr, Inhabited

/-- The metric method of the underlying function (external collaborator):
builds a metric over the function from the given options. -/
def IFunction.metric (fnPath : List String) (metricName : String)
    (props : MetricOptions) : Metric :=
  { functionPath := fnPath, metricName := metricName
    region := props.region, label := props.label }

def IFunction.metricDuration (fnPath : List String) (props : MetricOptions) : Metric :=
  IFunction.metric fnPath "Duration" props

def IFunction.metricErrors (fnPath : List String) (props : MetricOptions) : Metric :=
  IFunction.metric fnPath "Errors" props

def IFunction.metricInvocations (fnPath : List String) (props : MetricOptions) : Metric :=
  IFunction.metric fnPath "Invocations" props

def IFunction.metricThrottles (fnPath : List String) (props : MetricOptions) : Metric :=
  IFunction.metric fnPath "Throttles" props

/-- EdgeFunction.metric (lines 104-106): forwards to the underlying
function with the region of the options overridden to EDGE_REGION. -/
def EdgeFunctionResult.metric (ef : EdgeFunctionResult) (metricName : String)
    (props : MetricOptions) : Metric :=
  IFunction.metric ef.lambdaPath metricName { props with region := some EDGE_REGION }

def EdgeFunctionResult.metricDuration (ef : EdgeFunctionResult)
    (props : MetricOptions) : Metric :=
  IFunction.metricDuration ef.lambdaPath { props with region := some EDGE_REGION }

def EdgeFunctionResult.metricErrors (ef : EdgeFunctionResult)
    (props : MetricOptions) : Metric :=
  IFunction.metricErrors ef.lambdaPath { props with region := some EDGE_REGION }

def EdgeFunctionResult.metricInvocations (ef : EdgeFunctionResult)
    (props : MetricOptions) : Metric :=
  IFunction.metricInvocations ef.lambdaPath { props with region := some EDGE_REGION }

def EdgeFunctionResult.metricThrottles (ef : EdgeFunctionResult)
    (props : MetricOptions) : Metric :=
  IFunction.metricThrottles ef.lambdaPath { props with region := some EDGE_REGION }

instance {ε α : Type} [DecidableEq ε] [DecidableEq α] : DecidableEq (Except ε α) := by
  intro a b
  cases a with
  | error e1 =>
      cases b with
      | error e2 =>
          exact decidable_of_iff (e1 = e2) (by simp)
      | ok v2 => exact isFalse (by simp)
  | ok v1 =>
      cases b with
      | error e2 => exact isFalse (by simp)
      | ok v2 =>
          exact decidable_of_iff (v1 = v2) (by simp)

/-! ## Concrete scenarios

A fresh application and a handful of stacks, used to evaluate the
embedding on concrete inputs. -/

def emptyWorld : World := ⟨[], [], [], [], [], [], []⟩

def propsNoRole : EdgeFunctionProps := ⟨none, false⟩

def propsVpc : EdgeFunctionProps := ⟨none, true⟩

def scUsEast1 : CallerScope := ⟨"Stack1", RegionValue.resolved "us-east-1", true⟩

def scEuWestA : CallerScope := ⟨"StackA", RegionValue.resolved "eu-west-1", true⟩

def scEuWestB : CallerScope := ⟨"StackB", RegionValue.resolved "eu-west-1", true⟩

def scEuCentral : CallerScope := ⟨"StackC", RegionValue.resolved "eu-central-1", true⟩

def scNoStage : CallerScope := ⟨"StackD", RegionValue.resolved "eu-west-1", false⟩

def dummyResult : EdgeFunctionResult :=
  mkResult scUsEast1 "MyFn" ⟨[], [], ArnValue.currentVersionEdgeArn [], ""⟩

def outUs : Except String EdgeFunctionResult × World :=
  constructEdgeFunction scUsEast1 "MyFn" propsVpc 0 emptyWorld

def resUs : EdgeFunctionResult := outUs.1.toOption.getD dummyResult

def wUs : World := outUs.2

def outA : Except String EdgeFunctionResult × World :=
  constructEdgeFunction scEuWestA "Fn1" propsNoRole 0 emptyWorld

def resA : EdgeFunctionResult := outA.1.toOption.getD dummyResult

def wA : World := outA.2

def outB : Except String EdgeFunctionResult × World :=
  constructEdgeFunction scEuWestB "Fn2" propsNoRole 0 wA

def resB : EdgeFunctionResult := outB.1.toOption.getD dummyResult

def wB : World := outB.2

def outC : Except String EdgeFunctionResult × World :=
  constructEdgeFunction scEuCentral "Fn3" propsNoRole 0 wA

def resC : EdgeFunctionResult := outC.1.toOption.getD dummyResult

def wC : World := outC.2

/-! ## Helper lemmas -/

theorem string_append_left_cancel {s a b : String} (h : s ++ a = s ++ b) : a = b := by
  have hd : s.data ++ a.data = s.data ++ b.data := by
    simpa [String.data_append] using congrArg String.data h
  exact String.ext (List.append_cancel_left hd)

theorem edgeStack_ok_facts (sc : CallerScope) (w : World) (k : String) (w1 : World)
    (r : String) (hr : sc.region = RegionValue.resolved r)
    (h : edgeStack sc w = Except.ok (k, w1)) :
    sc.rootIsStage = true ∧
    k = "edge-lambda-stack-" ++ r ∧
    w1.functions = w.functions ∧
    w1.parameters = w.parameters ∧
    w1.providers = w.providers ∧
    w1.customResources = w.customResources ∧
    w1.stackDeps = w.stackDeps ∧
    w1.aliases = w.aliases ∧
    ((w.supportStacks.map SupportStackRec.id).Nodup →
      (w1.supportStacks.map SupportStackRec.id).Nodup) := by
  unfold edgeStack at h
  by_cases hs : sc.rootIsStage = true
  · rw [hr] at h
    simp only [hs, Bool.not_true, Bool.false_eq_true, if_false] at h
    cases hf : w.supportStacks.find? (fun s => s.id == "edge-lambda-stack-" ++ r) with
    | some s =>
        rw [hf] at h
        simp only [Except.ok.injEq, Prod.mk.injEq] at h
        obtain ⟨hk, hw⟩ := h
        subst hw
        exact ⟨hs, hk.symm, rfl, rfl, rfl, rfl, rfl, rfl, fun hn => hn⟩
    | none =>
        rw [hf] at h
        simp only [Except.ok.injEq, Prod.mk.injEq] at h
        obtain ⟨hk, hw⟩ := h
        subst hw
        refine ⟨hs, hk.symm, rfl, rfl, rfl, rfl, rfl, rfl, fun hn => ?_⟩
        have hnotin : ∀ s ∈ w.supportStacks, s.id ≠ "edge-lambda-stack-" ++ r := by
          intro s hsmem
          have := List.find?_eq_none.mp hf s hsmem
          simpa using this
        simp only [List.map_append, List.map_cons, List.map_nil]
        rw [List.nodup_append]
        refine ⟨hn, List.nodup_singleton _, ?_⟩
        intro x hx hx1
        simp only [List.mem_singleton] at hx1
        obtain ⟨s, hsmem, hsid⟩ := List.mem_map.mp hx
        exact hnotin s hsmem (by rw [hsid, hx1])
  · simp only [Bool.not_eq_true] at hs
    simp [hs] at h

theorem createCrossRegion_ok_facts (sc : CallerScope) (id : String)
    (p : EdgeFunctionProps) (n : Nat) (w : World) (cfg : FunctionConfig)
    (w5 : World) (r : String) (hr : sc.region = RegionValue.resolved r)
    (h : createCrossRegionFunction sc id p n w = Except.ok (cfg, w5)) :
    sc.rootIsStage = true ∧
    cfg.functionStackId = "edge-lambda-stack-" ++ r ∧
    cfg.edgeFunctionPath = ["edge-lambda-stack-" ++ r, id] ∧
    cfg.currentVersion = ["edge-lambda-stack-" ++ r, id] ∧
    cfg.edgeArn = ArnValue.getAttString [sc.stackId, id, "ArnReader"] "FunctionArn" ∧
    w5.functions = w.functions ++
      [⟨["edge-lambda-stack-" ++ r], id,
        p.role.getD (defaultLambdaRole ["edge-lambda-stack-" ++ r] id), p.hasVpc⟩] ∧
    w5.parameters = w.parameters ++
      [⟨["edge-lambda-stack-" ++ r, id], "EdgeFunctionArn" ++ id,
        ArnValue.currentVersionEdgeArn ["edge-lambda-stack-" ++ r, id]⟩] ∧
    w5.customResources = w.customResources ++
      [⟨[sc.stackId, id], "ArnReader", crossRegionResourceType, EDGE_REGION,
        "EdgeFunctionArn" ++ id, n⟩] ∧
    w5.stackDeps = w.stackDeps ++ [(sc.stackId, "edge-lambda-stack-" ++ r)] ∧
    w5.aliases = w.aliases ∧
    ((w.supportStacks.map SupportStackRec.id).Nodup →
      (w5.supportStacks.map SupportStackRec.id).Nodup) ∧
    ((∀ pr ∈ w.providers,
        ¬(pr.scopePath = [sc.stackId, id] ∧ pr.resourceType = crossRegionResourceType)) →
      w5.providers = w.providers ++
        [⟨[sc.stackId, id], crossRegionResourceType,
          ArnValue.ssmParameterArn EDGE_REGION ("EdgeFunctionArn" ++ id)⟩]) ∧
    (∃ tail, w5.providers = w.providers ++ tail) := by
  unfold createCrossRegionFunction at h
  cases he : edgeStack sc w with
  | error e =>
      rw [he] at h
      simp at h
  | ok kw1 =>
      obtain ⟨k, w1⟩ := kw1
      rw [he] at h
      obtain ⟨hstage, hk, hfuns, hparams, hprov, hcr, hdeps, hali, hnd⟩ :=
        edgeStack_ok_facts sc w k w1 r hr he
      subst hk
      simp only [addEdgeFunction, getOrCreateProvider, LambdaFunction.path,
        List.cons_append, List.nil_append] at h
      rw [hprov] at h
      cases hp : w.providers.find?
          (fun pr => pr.scopePath == [sc.stackId, id] &&
            pr.resourceType == crossRegionResourceType) with
      | some pr =>
          rw [hp] at h
          simp only [Except.ok.injEq, Prod.mk.injEq] at h
          obtain ⟨hcfg, hw5⟩ := h
          subst hcfg
          subst hw5
          have hmem := List.mem_of_find?_eq_some hp
          have hpred := List.find?_some hp
          simp only [Bool.and_eq_true, beq_iff_eq] at hpred
          refine ⟨hstage, rfl, rfl, rfl, rfl, by simp [hfuns], by simp [hparams],
            by simp [hcr], by simp [hdeps], by simp [hali], hnd, ?_, ⟨[], by simp⟩⟩
          intro hno
          exact absurd ⟨hpred.1, hpred.2⟩ (hno pr hmem)
      | none =>
          rw [hp] at h
          simp only [Except.ok.injEq, Prod.mk.injEq] at h
          obtain ⟨hcfg, hw5⟩ := h
          subst hcfg
          subst hw5
          exact ⟨hstage, rfl, rfl, rfl, rfl, by simp [hfuns], by simp [hparams],
            by simp [hcr], by simp [hdeps], by simp [hali], hnd,
            fun _ => rfl, ⟨_, rfl⟩⟩

theorem constructEdgeFunction_ok_cases (sc : CallerScope) (id : String)
    (p : EdgeFunctionProps) (n : Nat) (w : World) (res : EdgeFunctionResult)
    (w' : World) (h : constructEdgeFunction sc id p n w = (Except.ok res, w')) :
    (regionIsUsEast1 sc.region = true ∧
      res = mkResult sc id (createInRegionFunction sc id p w).1 ∧
      w' = (createInRegionFunction sc id p w).2) ∨
    (regionIsUsEast1 sc.region = false ∧
      ∃ cfg, createCrossRegionFunction sc id p n w = Except.ok (cfg, w') ∧
        res = mkResult sc id cfg) := by
  unfold constructEdgeFunction at h
  by_cases hb : regionIsUsEast1 sc.region = true
  · left
    simp only [hb, if_true] at h
    simp only [Prod.mk.injEq, Except.ok.injEq] at h
    exact ⟨hb, h.1.symm, h.2.symm⟩
  · right
    have hb1 : regionIsUsEast1 sc.region = false := by
      simpa using hb
    simp only [hb1, Bool.false_eq_true, if_false] at h
    cases hc : createCrossRegionFunction sc id p n w with
    | error e =>
        rw [hc] at h
        simp at h
    | ok cw =>
        obtain ⟨cfg, w5⟩ := cw
        rw [hc] at h
        simp only [Prod.mk.injEq, Except.ok.injEq] at h
        obtain ⟨hres, hw⟩ := h
        subst hw
        exact ⟨hb1, cfg, rfl, hres.symm⟩

theorem edgeStack_config_error (sc : CallerScope) (w : World)
    (hbad : sc.rootIsStage = false ∨ sc.region.isUnresolved = true) :
    edgeStack sc w =
      Except.error "stacks which use EdgeFunctions must be part of a CDK app or stage" ∨
    edgeStack sc w =
      Except.error "stacks which use EdgeFunctions must have an explicitly set region" := by
  unfold edgeStack
  rcases hbad with hb | hb
  · left
    simp [hb]
  · by_cases hs : sc.rootIsStage = true
    · cases hreg : sc.region with
      | resolved r =>
          rw [hreg] at hb
          simp [RegionValue.isUnresolved] at hb
      | token t =>
          right
          simp [hs, hreg]
    · left
      simp only [Bool.not_eq_true] at hs
      simp [hs]

theorem createCrossRegion_config_error (sc : CallerScope) (id : String)
    (p : EdgeFunctionProps) (n : Nat) (w : World)
    (hbad : sc.rootIsStage = false ∨ sc.region.isUnresolved = true) :
    createCrossRegionFunction sc id p n w =
      Except.error "stacks which use EdgeFunctions must be part of a CDK app or stage" ∨
    createCrossRegionFunction sc id p n w =
      Except.error "stacks which use EdgeFunctions must have an explicitly set region" := by
  unfold createCrossRegionFunction
  rcases edgeStack_config_error sc w hbad with he | he <;> rw [he]
  · left; rfl
  · right; rfl

/-! ## Claims -/

/-- C1 counterexample: two EdgeFunction constructions in the same
application, both requesting cross-region placement for the one target
region us-east-1 (caller regions eu-west-1 and eu-central-1), resolve to
two distinct support stacks; after both constructions the application
holds two support stacks, both with env region us-east-1. The lookup key
is therefore not a pure function of the target region, edgeStack does not
return the identical instance for the two constructions, and more than
one support stack exists for the (application root, target region) pair. -/
theorem C1_counterexample :
    outA.1.toOption.map EdgeFunctionResult.functionStackId =
      some "edge-lambda-stack-eu-west-1" ∧
    outC.1.toOption.map EdgeFunctionResult.functionStackId =
      some "edge-lambda-stack-eu-central-1" ∧
    wC.supportStacks.map (fun s => (s.id, s.envRegion)) =
      [("edge-lambda-stack-eu-west-1", "us-east-1"),
       ("edge-lambda-stack-eu-central-1", "us-east-1")] := by
  refine ⟨?_, ?_, ?_⟩ <;> decide

/-- C1 (amended): the support-structure lookup key is a pure function of
the region of the caller stack (still independent of caller identity):
any two EdgeFunction constructions in the same application requesting
cross-region placement from stacks with the same resolved region r
resolve to the support stack with id edge-lambda-stack-r — the identical
(by identity) instance — and support-stack ids remain unique, so at most
one support stack exists per (application root, caller region) pair. -/
theorem C1_support_stack_dedup (sc1 sc2 : CallerScope) (id1 id2 : String)
    (p1 p2 : EdgeFunctionProps) (n1 n2 : Nat) (w w1 w2 : World)
    (res1 res2 : EdgeFunctionResult) (r : String)
    (hr1 : sc1.region = RegionValue.resolved r)
    (hr2 : sc2.region = RegionValue.resolved r)
    (hne : r ≠ "us-east-1")
    (h1 : constructEdgeFunction sc1 id1 p1 n1 w = (Except.ok res1, w1))
    (h2 : constructEdgeFunction sc2 id2 p2 n2 w1 = (Except.ok res2, w2))
    (hnd : (w.supportStacks.map SupportStackRec.id).Nodup) :
    res1.functionStackId = res2.functionStackId ∧
    res1.functionStackId = "edge-lambda-stack-" ++ r ∧
    (w2.supportStacks.map SupportStackRec.id).Nodup := by
  have hb1 : regionIsUsEast1 sc1.region = false := by
    rw [hr1]
    simp [regionIsUsEast1, RegionValue.isUnresolved, RegionValue.eqString,
      EDGE_REGION, hne]
  have hb2 : regionIsUsEast1 sc2.region = false := by
    rw [hr2]
    simp [regionIsUsEast1, RegionValue.isUnresolved, RegionValue.eqString,
      EDGE_REGION, hne]
  rcases constructEdgeFunction_ok_cases sc1 id1 p1 n1 w res1 w1 h1 with
    ⟨hb, _, _⟩ | ⟨_, cfg1, hc1, hres1⟩
  · rw [hb1] at hb; cases hb
  rcases constructEdgeFunction_ok_cases sc2 id2 p2 n2 w1 res2 w2 h2 with
    ⟨hb, _, _⟩ | ⟨_, cfg2, hc2, hres2⟩
  · rw [hb2] at hb; cases hb
  obtain ⟨_, hk1, _, _, _, _, _, _, _, _, hnd1, _, _⟩ :=
    createCrossRegion_ok_facts sc1 id1 p1 n1 w cfg1 w1 r hr1 hc1
  obtain ⟨_, hk2, _, _, _, _, _, _, _, _, hnd2, _, _⟩ :=
    createCrossRegion_ok_facts sc2 id2 p2 n2 w1 cfg2 w2 r hr2 hc2
  subst hres1
  subst hres2
  exact ⟨by simp [mkResult, hk1, hk2], by simp [mkResult, hk1], hnd2 (hnd1 hnd)⟩

/-- Witness for the amended C1: two concrete constructions in one
application, from stacks StackA and StackB both in region eu-west-1,
share the support stack edge-lambda-stack-eu-west-1. -/
theorem C1_support_stack_dedup_witness :
    scEuWestA.region = RegionValue.resolved "eu-west-1" ∧
    scEuWestB.region = RegionValue.resolved "eu-west-1" ∧
    "eu-west-1" ≠ "us-east-1" ∧
    constructEdgeFunction scEuWestA "Fn1" propsNoRole 0 emptyWorld =
      (Except.ok resA, wA) ∧
    constructEdgeFunction scEuWestB "Fn2" propsNoRole 0 wA =
      (Except.ok resB, wB) ∧
    (emptyWorld.supportStacks.map SupportStackRec.id).Nodup ∧
    (resA.functionStackId = resB.functionStackId ∧
      resA.functionStackId = "edge-lambda-stack-" ++ "eu-west-1" ∧
      (wB.supportStacks.map SupportStackRec.id).Nodup) :=
  ⟨rfl, rfl, by decide, by decide, by decide, by decide,
    C1_support_stack_dedup scEuWestA scEuWestB "Fn1" "Fn2" propsNoRole propsNoRole
      0 0 emptyWorld wA wB resA resB "eu-west-1" rfl rfl (by decide) (by decide)
      (by decide) (by decide)⟩

/-- C2: on the cross-region path, construction fails synchronously with a
configuration error whenever the root of the tree is not a Stage or the
caller region is an unresolved token, and the construct-tree state is
returned exactly as it was: no support stack, function, parameter,
provider, custom resource, stack dependency or alias has been created. -/
theorem C2_config_error_before_children (sc : CallerScope) (id : String)
    (p : EdgeFunctionProps) (n : Nat) (w : World)
    (hcross : regionIsUsEast1 sc.region = false)
    (hbad : sc.rootIsStage = false ∨ sc.region.isUnresolved = true) :
    ((constructEdgeFunction sc id p n w).1 =
        Except.error "stacks which use EdgeFunctions must be part of a CDK app or stage" ∨
      (constructEdgeFunction sc id p n w).1 =
        Except.error "stacks which use EdgeFunctions must have an explicitly set region") ∧
    (constructEdgeFunction sc id p n w).2 = w := by
  unfold constructEdgeFunction
  rw [hcross]
  simp only [Bool.false_eq_true, if_false]
  rcases createCrossRegion_config_error sc id p n w hbad with he | he <;> rw [he]
  · exact ⟨Or.inl rfl, rfl⟩
  · exact ⟨Or.inr rfl, rfl⟩

/-- Witness for C2: a stack in region eu-west-1 whose tree root is not a
Stage; construction reports the configuration error and leaves the fresh
world untouched. -/
theorem C2_config_error_before_children_witness :
    regionIsUsEast1 scNoStage.region = false ∧
    (scNoStage.rootIsStage = false ∨ scNoStage.region.isUnresolved = true) ∧
    (((constructEdgeFunction scNoStage "MyFn" propsNoRole 0 emptyWorld).1 =
        Except.error "stacks which use EdgeFunctions must be part of a CDK app or stage" ∨
      (constructEdgeFunction scNoStage "MyFn" propsNoRole 0 emptyWorld).1 =
        Except.error "stacks which use EdgeFunctions must have an explicitly set region") ∧
    (constructEdgeFunction scNoStage "MyFn" propsNoRole 0 emptyWorld).2 = emptyWorld) :=
  ⟨by decide, Or.inl rfl,
    C2_config_error_before_children scNoStage "MyFn" propsNoRole 0 emptyWorld
      (by decide) (Or.inl rfl)⟩

/-- C3: when the caller stack region is concretely us-east-1, the
in-region path is taken: the only created resource is the Function child
Fn of the facade inside the caller stack, the owning stack is the caller
stack, and the resolved identifier is the edgeArn of the current version
of that function; no support stack, parameter, provider, custom resource
or stack dependency is created. -/
theorem C3_in_region_path (sc : CallerScope) (id : String) (p : EdgeFunctionProps)
    (n : Nat) (w : World) (h : sc.region = RegionValue.resolved "us-east-1") :
    constructEdgeFunction sc id p n w =
      (Except.ok
        { facadePath := [sc.stackId, id]
          functionStackId := sc.stackId
          lambdaPath := [sc.stackId, id, "Fn"]
          currentVersion := [sc.stackId, id, "Fn"]
          edgeArn := ArnValue.currentVersionEdgeArn [sc.stackId, id, "Fn"]
          functionArn := ArnValue.currentVersionEdgeArn [sc.stackId, id, "Fn"]
          version := extractQualifierFromArn
            (ArnValue.currentVersionEdgeArn [sc.stackId, id, "Fn"])
          isBoundToVpc := false },
       { w with functions := w.functions ++
          [{ scopePath := [sc.stackId, id], id := "Fn",
             role := p.role.getD (defaultLambdaRole [sc.stackId, id] id),
             hasVpc := p.hasVpc }] }) := by
  have hb : regionIsUsEast1 sc.region = true := by
    rw [h]; rfl
  unfold constructEdgeFunction
  rw [hb]
  simp [createInRegionFunction, mkResult, LambdaFunction.path]

/-- Witness for C3: a concrete construction in a us-east-1 stack. -/
theorem C3_in_region_path_witness :
    scUsEast1.region = RegionValue.resolved "us-east-1" ∧
    constructEdgeFunction scUsEast1 "MyFn" propsVpc 0 emptyWorld =
      (Except.ok
        { facadePath := ["Stack1", "MyFn"]
          functionStackId := "Stack1"
          lambdaPath := ["Stack1", "MyFn", "Fn"]
          currentVersion := ["Stack1", "MyFn", "Fn"]
          edgeArn := ArnValue.currentVersionEdgeArn ["Stack1", "MyFn", "Fn"]
          functionArn := ArnValue.currentVersionEdgeArn ["Stack1", "MyFn", "Fn"]
          version := extractQualifierFromArn
            (ArnValue.currentVersionEdgeArn ["Stack1", "MyFn", "Fn"])
          isBoundToVpc := false },
       { emptyWorld with functions :=
          emptyWorld.functions ++
            [{ scopePath := ["Stack1", "MyFn"], id := "Fn",
               role := propsVpc.role.getD
                 (defaultLambdaRole ["Stack1", "MyFn"] "MyFn"),
               hasVpc := propsVpc.hasVpc }] }) :=
  ⟨rfl, C3_in_region_path scUsEast1 "MyFn" propsVpc 0 emptyWorld rfl⟩

/-- C4: two cross-region constructions with the same caller region and
distinct logical ids generate distinct parameter names EdgeFunctionArn +
id; each publishes the edgeArn of the current version of its own function
under its own name; each facade resolves to the FunctionArn attribute of
its own ArnReader custom resource (the two attributes are distinct
values), whose reader is scoped, through the provider policy, to the ARN
of its own parameter. The freshness hypothesis on providers reflects that
the provider scope — the facade construct — was just created, so no
provider of this resource type can already live under it. -/
theorem C4_distinct_parameters (sc1 sc2 : CallerScope) (id1 id2 : String)
    (p1 p2 : EdgeFunctionProps) (n1 n2 : Nat) (w w1 w2 : World)
    (res1 res2 : EdgeFunctionResult) (r : String)
    (hr1 : sc1.region = RegionValue.resolved r)
    (hr2 : sc2.region = RegionValue.resolved r)
    (hne : r ≠ "us-east-1")
    (hid : id1 ≠ id2)
    (h1 : constructEdgeFunction sc1 id1 p1 n1 w = (Except.ok res1, w1))
    (h2 : constructEdgeFunction sc2 id2 p2 n2 w1 = (Except.ok res2, w2))
    (hfresh : ∀ pr ∈ w.providers, pr.resourceType ≠ crossRegionResourceType) :
    "EdgeFunctionArn" ++ id1 ≠ "EdgeFunctionArn" ++ id2 ∧
    (⟨["edge-lambda-stack-" ++ r, id1], "EdgeFunctionArn" ++ id1,
      ArnValue.currentVersionEdgeArn ["edge-lambda-stack-" ++ r, id1]⟩ : SsmParameter)
        ∈ w2.parameters ∧
    (⟨["edge-lambda-stack-" ++ r, id2], "EdgeFunctionArn" ++ id2,
      ArnValue.currentVersionEdgeArn ["edge-lambda-stack-" ++ r, id2]⟩ : SsmParameter)
        ∈ w2.parameters ∧
    res1.edgeArn = ArnValue.getAttString [sc1.stackId, id1, "ArnReader"] "FunctionArn" ∧
    res2.edgeArn = ArnValue.getAttString [sc2.stackId, id2, "ArnReader"] "FunctionArn" ∧
    res1.edgeArn ≠ res2.edgeArn ∧
    (⟨[sc1.stackId, id1], "ArnReader", crossRegionResourceType, EDGE_REGION,
      "EdgeFunctionArn" ++ id1, n1⟩ : CustomResourceRec) ∈ w2.customResources ∧
    (⟨[sc2.stackId, id2], "ArnReader", crossRegionResourceType, EDGE_REGION,
      "EdgeFunctionArn" ++ id2, n2⟩ : CustomResourceRec) ∈ w2.customResources ∧
    (⟨[sc1.stackId, id1], crossRegionResourceType,
      ArnValue.ssmParameterArn EDGE_REGION ("EdgeFunctionArn" ++ id1)⟩ : ProviderRec)
        ∈ w2.providers ∧
    (⟨[sc2.stackId, id2], crossRegionResourceType,
      ArnValue.ssmParameterArn EDGE_REGION ("EdgeFunctionArn" ++ id2)⟩ : ProviderRec)
        ∈ w2.providers := by
  have hb1 : regionIsUsEast1 sc1.region = false := by
    rw [hr1]
    simp [regionIsUsEast1, RegionValue.isUnresolved, RegionValue.eqString,
      EDGE_REGION, hne]
  have hb2 : regionIsUsEast1 sc2.region = false := by
    rw [hr2]
    simp [regionIsUsEast1, RegionValue.isUnresolved, RegionValue.eqString,
      EDGE_REGION, hne]
  rcases constructEdgeFunction_ok_cases sc1 id1 p1 n1 w res1 w1 h1 with
    ⟨hb, _, _⟩ | ⟨_, cfg1, hc1, hres1⟩
  · rw [hb1] at hb; cases hb
  rcases constructEdgeFunction_ok_cases sc2 id2 p2 n2 w1 res2 w2 h2 with
    ⟨hb, _, _⟩ | ⟨_, cfg2, hc2, hres2⟩
  · rw [hb2] at hb; cases hb
  obtain ⟨_, _, _, _, hearn1, _, hpar1, hcr1, _, _, _, hprovEq1, _⟩ :=
    createCrossRegion_ok_facts sc1 id1 p1 n1 w cfg1 w1 r hr1 hc1
  obtain ⟨_, _, _, _, hearn2, _, hpar2, hcr2, _, _, _, hprovEq2, _⟩ :=
    createCrossRegion_ok_facts sc2 id2 p2 n2 w1 cfg2 w2 r hr2 hc2
  have hno1 : ∀ pr ∈ w.providers,
      ¬(pr.scopePath = [sc1.stackId, id1] ∧
        pr.resourceType = crossRegionResourceType) := by
    intro pr hm hand
    exact hfresh pr hm hand.2
  have hprov1 := hprovEq1 hno1
  have hno2 : ∀ pr ∈ w1.providers,
      ¬(pr.scopePath = [sc2.stackId, id2] ∧
        pr.resourceType = crossRegionResourceType) := by
    intro pr hm hand
    rw [hprov1] at hm
    rcases List.mem_append.mp hm with hm | hm
    · exact hfresh pr hm hand.2
    · simp only [List.mem_singleton] at hm
      subst hm
      have hsp := hand.1
      simp only [List.cons.injEq, and_true] at hsp
      exact hid hsp.2
  have hprov2 := hprovEq2 hno2
  have hnames : "EdgeFunctionArn" ++ id1 ≠ "EdgeFunctionArn" ++ id2 := by
    intro hcontra
    exact hid (string_append_left_cancel hcontra)
  subst hres1
  subst hres2
  refine ⟨hnames, ?_, ?_, ?_, ?_, ?_, ?_, ?_, ?_, ?_⟩
  · rw [hpar2, hpar1]; simp
  · rw [hpar2]; simp
  · simp [mkResult, hearn1]
  · simp [mkResult, hearn2]
  · simp [mkResult, hearn1, hearn2, hid]
  · rw [hcr2, hcr1]; simp
  · rw [hcr2]; simp
  · rw [hprov2, hprov1]; simp
  · rw [hprov2]; simp

/-- Witness for C4: the constructions of Fn1 from StackA and Fn2 from
StackB, both in caller region eu-west-1, in one fresh application. -/
theorem C4_distinct_parameters_witness :
    scEuWestA.region = RegionValue.resolved "eu-west-1" ∧
    scEuWestB.region = RegionValue.resolved "eu-west-1" ∧
    "eu-west-1" ≠ "us-east-1" ∧
    "Fn1" ≠ "Fn2" ∧
    constructEdgeFunction scEuWestA "Fn1" propsNoRole 0 emptyWorld =
      (Except.ok resA, wA) ∧
    constructEdgeFunction scEuWestB "Fn2" propsNoRole 0 wA =
      (Except.ok resB, wB) ∧
    (∀ pr ∈ emptyWorld.providers, pr.resourceType ≠ crossRegionResourceType) ∧
    ("EdgeFunctionArn" ++ "Fn1" ≠ "EdgeFunctionArn" ++ "Fn2" ∧
      (⟨["edge-lambda-stack-" ++ "eu-west-1", "Fn1"], "EdgeFunctionArn" ++ "Fn1",
        ArnValue.currentVersionEdgeArn ["edge-lambda-stack-" ++ "eu-west-1", "Fn1"]⟩ :
          SsmParameter) ∈ wB.parameters ∧
      (⟨["edge-lambda-stack-" ++ "eu-west-1", "Fn2"], "EdgeFunctionArn" ++ "Fn2",
        ArnValue.currentVersionEdgeArn ["edge-lambda-stack-" ++ "eu-west-1", "Fn2"]⟩ :
          SsmParameter) ∈ wB.parameters ∧
      resA.edgeArn = ArnValue.getAttString ["StackA", "Fn1", "ArnReader"] "FunctionArn" ∧
      resB.edgeArn = ArnValue.getAttString ["StackB", "Fn2", "ArnReader"] "FunctionArn" ∧
      resA.edgeArn ≠ resB.edgeArn ∧
      (⟨["StackA", "Fn1"], "ArnReader", crossRegionResourceType, EDGE_REGION,
        "EdgeFunctionArn" ++ "Fn1", 0⟩ : CustomResourceRec) ∈ wB.customResources ∧
      (⟨["StackB", "Fn2"], "ArnReader", crossRegionResourceType, EDGE_REGION,
        "EdgeFunctionArn" ++ "Fn2", 0⟩ : CustomResourceRec) ∈ wB.customResources ∧
      (⟨["StackA", "Fn1"], crossRegionResourceType,
        ArnValue.ssmParameterArn EDGE_REGION ("EdgeFunctionArn" ++ "Fn1")⟩ :
          ProviderRec) ∈ wB.providers ∧
      (⟨["StackB", "Fn2"], crossRegionResourceType,
        ArnValue.ssmParameterArn EDGE_REGION ("EdgeFunctionArn" ++ "Fn2")⟩ :
          ProviderRec) ∈ wB.providers) :=
  ⟨rfl, rfl, by decide, by decide, rfl, rfl, by simp [emptyWorld],
    C4_distinct_parameters scEuWestA scEuWestB "Fn1" "Fn2" propsNoRole propsNoRole
      0 0 emptyWorld wA wB resA resB "eu-west-1" rfl rfl (by decide) (by decide)
      rfl rfl (by simp [emptyWorld])⟩

/-- C5: on every facade, whichever placement path was taken, the
connections accessor and the latestVersion accessor always fail with
their descriptive unsupported-capability errors; neither ever returns a
value. -/
theorem C5_unsupported_accessors (ef : EdgeFunctionResult) :
    ef.connections = Except.error "Lambda@Edge does not support connections" ∧
    ef.latestVersion =
      Except.error "$LATEST function version cannot be used for Lambda@Edge" :=
  ⟨rfl, rfl⟩

/-- C6: for every alias name and options, addAlias creates the alias as a
child of the owning stack resolved at placement time — the caller stack
on the in-region path and the support stack edge-lambda-stack-r on the
cross-region path — targeting the stored current version. -/
theorem C6_alias_in_owning_stack (sc : CallerScope) (id : String)
    (p : EdgeFunctionProps) (n : Nat) (w w' wa : World) (res : EdgeFunctionResult)
    (aliasName : String) (opts : AliasOptions)
    (h : constructEdgeFunction sc id p n w = (Except.ok res, w')) :
    (res.addAlias aliasName opts wa).1.scopePath = [res.functionStackId] ∧
    (res.addAlias aliasName opts wa).1.versionOf = res.currentVersion ∧
    (res.addAlias aliasName opts wa).2.aliases =
      wa.aliases ++ [(res.addAlias aliasName opts wa).1] ∧
    (regionIsUsEast1 sc.region = true → res.functionStackId = sc.stackId) ∧
    (∀ r, sc.region = RegionValue.resolved r → r ≠ "us-east-1" →
      res.functionStackId = "edge-lambda-stack-" ++ r) := by
  refine ⟨rfl, rfl, rfl, ?_, ?_⟩
  · intro hb
    rcases constructEdgeFunction_ok_cases sc id p n w res w' h with
      ⟨_, hres, _⟩ | ⟨hbf, _⟩
    · subst hres; rfl
    · rw [hb] at hbf; cases hbf
  · intro r hr hne
    have hbf : regionIsUsEast1 sc.region = false := by
      rw [hr]
      simp [regionIsUsEast1, RegionValue.isUnresolved, RegionValue.eqString,
        EDGE_REGION, hne]
    rcases constructEdgeFunction_ok_cases sc id p n w res w' h with
      ⟨hb, _, _⟩ | ⟨_, cfg, hc, hres⟩
    · rw [hbf] at hb; cases hb
    · obtain ⟨_, hk, _⟩ := createCrossRegion_ok_facts sc id p n w cfg w' r hr hc
      subst hres
      simpa [mkResult] using hk

/-- Witness for C6: an alias added to the concrete us-east-1 facade lands
in its caller stack Stack1. -/
theorem C6_alias_in_owning_stack_witness :
    constructEdgeFunction scUsEast1 "MyFn" propsVpc 0 emptyWorld =
      (Except.ok resUs, wUs) ∧
    ((resUs.addAlias "live" ⟨none⟩ wUs).1.scopePath = [resUs.functionStackId] ∧
      (resUs.addAlias "live" ⟨none⟩ wUs).1.versionOf = resUs.currentVersion ∧
      (resUs.addAlias "live" ⟨none⟩ wUs).2.aliases =
        wUs.aliases ++ [(resUs.addAlias "live" ⟨none⟩ wUs).1] ∧
      (regionIsUsEast1 scUsEast1.region = true →
        resUs.functionStackId = scUsEast1.stackId) ∧
      (∀ r, scUsEast1.region = RegionValue.resolved r → r ≠ "us-east-1" →
        resUs.functionStackId = "edge-lambda-stack-" ++ r)) :=
  ⟨rfl, C6_alias_in_owning_stack scUsEast1 "MyFn" propsVpc 0 emptyWorld wUs wUs
    resUs "live" ⟨none⟩ rfl⟩

/-- C7: every metric accessor of the facade forwards to the underlying
function with the region option overridden to us-east-1, whatever region
the caller put in the options, on any facade (hence on both placement
paths), preserving the other options. -/
theorem C7_metrics_pinned_to_edge_region (ef : EdgeFunctionResult) (name : String)
    (props : MetricOptions) :
    ef.metric name props =
      { functionPath := ef.lambdaPath, metricName := name,
        region := some "us-east-1", label := props.label } ∧
    ef.metricDuration props =
      { functionPath := ef.lambdaPath, metricName := "Duration",
        region := some "us-east-1", label := props.label } ∧
    ef.metricErrors props =
      { functionPath := ef.lambdaPath, metricName := "Errors",
        region := some "us-east-1", label := props.label } ∧
    ef.metricInvocations props =
      { functionPath := ef.lambdaPath, metricName := "Invocations",
        region := some "us-east-1", label := props.label } ∧
    ef.metricThrottles props =
      { functionPath := ef.lambdaPath, metricName := "Throttles",
        region := some "us-east-1", label := props.label } :=
  ⟨rfl, rfl, rfl, rfl, rfl⟩

/-- C8: on every successful construction, on either path, exactly one
function is created; its effective role is the caller-supplied role when
one is given, and otherwise the role built by the one shared
defaultLambdaRole procedure (applied at the scope of the function being
created): assumable by lambda.amazonaws.com and edgelambda.amazonaws.com
with the managed policy service-role/AWSLambdaBasicExecutionRole. -/
theorem C8_role_defaulting (sc : CallerScope) (id : String) (p : EdgeFunctionProps)
    (n : Nat) (w w' : World) (res : EdgeFunctionResult)
    (h : constructEdgeFunction sc id p n w = (Except.ok res, w')) :
    ∃ fn : LambdaFunction,
      w'.functions = w.functions ++ [fn] ∧
      fn.path = res.lambdaPath ∧
      (∀ r0, p.role = some r0 → fn.role = r0) ∧
      (p.role = none →
        fn.role = defaultLambdaRole fn.scopePath id ∧
        fn.role.assumedBy = ["lambda.amazonaws.com", "edgelambda.amazonaws.com"] ∧
        fn.role.managedPolicies = ["service-role/AWSLambdaBasicExecutionRole"]) := by
  rcases constructEdgeFunction_ok_cases sc id p n w res w' h with
    ⟨_, hres, hw⟩ | ⟨_, cfg, hc, hres⟩
  · subst hres
    subst hw
    refine ⟨{ scopePath := [sc.stackId, id], id := "Fn",
              role := p.role.getD (defaultLambdaRole [sc.stackId, id] id),
              hasVpc := p.hasVpc }, ?_, rfl, ?_, ?_⟩
    · simp [createInRegionFunction]
    · intro r0 hr0
      simp [hr0]
    · intro hnone
      rw [hnone]
      exact ⟨rfl, rfl, rfl⟩
  · cases hreg : sc.region with
    | token t =>
        rcases createCrossRegion_config_error sc id p n w
            (Or.inr (by rw [hreg]; rfl)) with he | he <;>
          rw [he] at hc <;> cases hc
    | resolved r =>
        obtain ⟨_, _, hpath, _, _, hfun, _⟩ :=
          createCrossRegion_ok_facts sc id p n w cfg w' r hreg hc
        subst hres
        refine ⟨⟨["edge-lambda-stack-" ++ r], id,
                 p.role.getD (defaultLambdaRole ["edge-lambda-stack-" ++ r] id),
                 p.hasVpc⟩, hfun, ?_, ?_, ?_⟩
        · simp [LambdaFunction.path, mkResult, hpath]
        · intro r0 hr0
          simp [hr0]
        · intro hnone
          rw [hnone]
          exact ⟨rfl, rfl, rfl⟩

/-- Witness for C8: the concrete us-east-1 construction with no
caller-supplied role. -/
theorem C8_role_defaulting_witness :
    constructEdgeFunction scUsEast1 "MyFn" propsVpc 0 emptyWorld =
      (Except.ok resUs, wUs) ∧
    (∃ fn : LambdaFunction,
      wUs.functions = emptyWorld.functions ++ [fn] ∧
      fn.path = resUs.lambdaPath ∧
      (∀ r0, propsVpc.role = some r0 → fn.role = r0) ∧
      (propsVpc.role = none →
        fn.role = defaultLambdaRole fn.scopePath "MyFn" ∧
        fn.role.assumedBy = ["lambda.amazonaws.com", "edgelambda.amazonaws.com"] ∧
        fn.role.managedPolicies = ["service-role/AWSLambdaBasicExecutionRole"])) :=
  ⟨rfl, C8_role_defaulting scUsEast1 "MyFn" propsVpc 0 emptyWorld wUs resUs rfl⟩

/-- C9: on every successful construction, on either path, the public
functionArn equals the public edgeArn (the version-qualified identifier)
and the public version is the qualifier extracted from that ARN. -/
theorem C9_functionArn_is_edgeArn (sc : CallerScope) (id : String)
    (p : EdgeFunctionProps) (n : Nat) (w w' : World) (res : EdgeFunctionResult)
    (h : constructEdgeFunction sc id p n w = (Except.ok res, w')) :
    res.functionArn = res.edgeArn ∧
    res.version = extractQualifierFromArn res.functionArn := by
  rcases constructEdgeFunction_ok_cases sc id p n w res w' h with
    ⟨_, hres, _⟩ | ⟨_, cfg, _, hres⟩ <;> subst hres <;> exact ⟨rfl, rfl⟩

/-- Witness for C9: the concrete us-east-1 construction. -/
theorem C9_functionArn_is_edgeArn_witness :
    constructEdgeFunction scUsEast1 "MyFn" propsVpc 0 emptyWorld =
      (Except.ok resUs, wUs) ∧
    (resUs.functionArn = resUs.edgeArn ∧
      resUs.version = extractQualifierFromArn resUs.functionArn) :=
  ⟨rfl, C9_functionArn_is_edgeArn scUsEast1 "MyFn" propsVpc 0 emptyWorld wUs
    resUs rfl⟩

/-- C10: on every successful construction the public isBoundToVpc is
false, even when the props carry VPC configuration that is forwarded to
the underlying function. -/
theorem C10_not_bound_to_vpc (sc : CallerScope) (id : String)
    (p : EdgeFunctionProps) (n : Nat) (w w' : World) (res : EdgeFunctionResult)
    (h : constructEdgeFunction sc id p n w = (Except.ok res, w')) :
    res.isBoundToVpc = false := by
  rcases constructEdgeFunction_ok_cases sc id p n w res w' h with
    ⟨_, hres, _⟩ | ⟨_, cfg, _, hres⟩ <;> subst hres <;> rfl

/-- Witness for C10: the concrete us-east-1 construction with hasVpc true
in the props; the created function carries the VPC configuration yet the
facade reports isBoundToVpc = false. -/
theorem C10_not_bound_to_vpc_witness :
    constructEdgeFunction scUsEast1 "MyFn" propsVpc 0 emptyWorld =
      (Except.ok resUs, wUs) ∧
    propsVpc.hasVpc = true ∧
    resUs.isBoundToVpc = false :=
  ⟨rfl, rfl,
    C10_not_bound_to_vpc scUsEast1 "MyFn" propsVpc 0 emptyWorld wUs resUs rfl⟩

end AwsCdk
